import Mathlib

/-!
Shallow embedding of the automation core of `src/src/discord_mcp/server.py`:
the rule-matching/dispatch engine (`on_member_join`, `on_reaction_add`,
`on_reaction_remove`), the deferred task scheduler (`schedule_task`,
`run_scheduled_task`) and the pattern-detection / auto-moderation scanner
(`auto_moderate_by_pattern`).

Conventions of the embedding:
* Python dicts with insertion order become association lists `List (String × _)`;
  iteration (`for rule_id, rule in automation_rules.items()`) becomes a fold in
  list order.
* Discord snowflake ids are modelled as `String` (the code compares them with
  `str(...) == str(...)`; the `int(...)` coercions are dropped).
* Python truthiness of an optional string field (`if server_id: ...`) is the
  predicate "present and non-empty".
* `str.replace`, `str.strip`, `str.lower` are re-implemented over `List Char`
  (`pyReplace`, `pyStrip`, `pyLower`) with the same left-to-right,
  non-overlapping replacement semantics; `ch.isalpha()` / `ch.isupper()`
  become `Char.isAlpha` / `Char.isUpper` (the ASCII fragment of Python's
  Unicode-aware predicates).
* External platform calls (`channel.send`, `member.add_roles`, ...) are
  recorded in a `World` structure; an exception raised while executing one
  rule's action (the body of the `try:` in each handler) is injected through
  an oracle `raises : String → Option String` mapping a rule id to the raised
  error text, mirroring the `except Exception` that logs and continues.
* Python float thresholds are modelled as rationals; the float division
  `upper / letters` becomes `Rat.divInt upper letters`.
-/

namespace DiscordMCP

/-- Python truthiness of an optional string field: `if value:` is true
exactly when the key is present and the string is non-empty. -/
def truthyStr : Option String → Bool
  | none => false
  | some s => !(s == "")

/-- Python `str.lower` (ASCII fragment), char by char. -/
def pyLower (s : String) : String := ⟨s.data.map Char.toLower⟩

/-- Python `str.strip`: drop whitespace from both ends. -/
def pyStripChars (l : List Char) : List Char :=
  ((l.dropWhile Char.isWhitespace).reverse.dropWhile Char.isWhitespace).reverse

/-- Python `str.strip` on strings. -/
def pyStrip (s : String) : String := ⟨pyStripChars s.data⟩

/-- Does the list start with the given pattern? -/
def listStartsWith : List Char → List Char → Bool
  | [], _ => true
  | _ :: _, [] => false
  | p :: ps, c :: cs => p == c && listStartsWith ps cs

/-- Python `str.replace(pat, repl)`: replace every non-overlapping occurrence
of `pat`, scanning left to right. `skip` counts characters still to consume
from a replaced occurrence (structural recursion on the scanned list). -/
def replaceCharsAux (pat repl : List Char) : Nat → List Char → List Char
  | _, [] => []
  | Nat.succ k, _ :: rest => replaceCharsAux pat repl k rest
  | 0, c :: rest =>
    if listStartsWith pat (c :: rest) then
      repl ++ replaceCharsAux pat repl (pat.length - 1) rest
    else
      c :: replaceCharsAux pat repl 0 rest

/-- Python `str.replace(pat, repl)` over char lists. -/
def replaceChars (pat repl l : List Char) : List Char :=
  replaceCharsAux pat repl 0 l

/-- Python `str.replace` on strings. -/
def pyReplace (s pat repl : String) : String :=
  ⟨replaceChars pat.data repl.data s.data⟩

/-! ## Data model: automation rules (`create_automation_rule`) -/

/-- The `action_payload` mapping of an automation rule, restricted to the keys
the handlers read (`channel_id`, `content`, `role_id`, `message_id`,
`remove_on_unreact`). -/
structure ActionPayload where
  channel_id : Option String
  content : Option String
  role_id : Option String
  message_id : Option String
  remove_on_unreact : Option Bool
deriving DecidableEq

/-- An empty `action_payload` (every key absent). -/
def ActionPayload.empty : ActionPayload :=
  { channel_id := none, content := none, role_id := none, message_id := none,
    remove_on_unreact := none }

/-- An automation rule record as stored in `automation_rules` by
`create_automation_rule`. -/
structure Rule where
  id : String
  server_id : Option String
  name : String
  trigger_type : String
  trigger_value : Option String
  action_type : String
  action_payload : ActionPayload
  enabled : Bool
deriving DecidableEq

/-! ## Events -/

/-- Context of a `on_member_join(member)` event: the fields of `member` the
handler reads. -/
structure JoinEvent where
  guildId : String
  guildName : String
  username : String
  userMention : String
  guildRoles : List String
deriving DecidableEq

/-- Context of an `on_reaction_add` / `on_reaction_remove` event: the fields
of `reaction` and `user` the handlers read, plus the outcomes of the guard
steps (`user.bot`, the `TextChannel` check, the `fetch_member` try). -/
structure ReactionEvent where
  userIsBot : Bool
  isTextChannel : Bool
  memberFetched : Bool
  guildId : String
  guildName : String
  messageId : String
  emoji : String
  username : String
  userMention : String
  guildRoles : List String
deriving DecidableEq

/-! ## Rule matching

Each matcher mirrors the chain of `continue` guards in the corresponding
handler loop, short-circuiting in the source's order (enabled first, then
trigger type, server scope, emoji, message id, and for removal the
`remove_on_unreact` flag). -/

/-- The guard chain of `on_member_join` (server.py lines 69-79). -/
def joinRuleMatches (ev : JoinEvent) (rule : Rule) : Bool :=
  if !rule.enabled then false
  else if !(rule.trigger_type == "member_join") then false
  else if truthyStr rule.server_id && !(ev.guildId == rule.server_id.getD "") then false
  else true

/-- The guard chain of `on_reaction_add` (server.py lines 142-163). -/
def reactionRuleMatches (ev : ReactionEvent) (rule : Rule) : Bool :=
  if !rule.enabled then false
  else if !(rule.trigger_type == "reaction_added") then false
  else if truthyStr rule.server_id && !(ev.guildId == rule.server_id.getD "") then false
  else if truthyStr rule.trigger_value && !(ev.emoji == rule.trigger_value.getD "") then false
  else if truthyStr rule.action_payload.message_id
            && !(ev.messageId == rule.action_payload.message_id.getD "") then false
  else true

/-- The guard chain of `on_reaction_remove` (server.py lines 225-251): the
same checks as the add handler, then the `remove_on_unreact` flag with
default `True`. -/
def reactionRemoveRuleMatches (ev : ReactionEvent) (rule : Rule) : Bool :=
  if !rule.enabled then false
  else if !(rule.trigger_type == "reaction_added") then false
  else if truthyStr rule.server_id && !(ev.guildId == rule.server_id.getD "") then false
  else if truthyStr rule.trigger_value && !(ev.emoji == rule.trigger_value.getD "") then false
  else if truthyStr rule.action_payload.message_id
            && !(ev.messageId == rule.action_payload.message_id.getD "") then false
  else if !(rule.action_payload.remove_on_unreact.getD true) then false
  else true

/-! ## Dispatch: observable effects -/

/-- A log line emitted by a handler: `logger.info("Executed automation rule ...")`
or `logger.error("Error executing automation rule ...")`. -/
inductive LogEntry where
  | executed (rule_id : String) (note : String)
  | ruleError (rule_id : String) (msg : String)
deriving DecidableEq

/-- The observable external state a handler touches: messages sent to the
platform (channel id and embed description), the roles of the member the
event concerns, and the log. -/
structure World where
  sentMessages : List (String × String)
  memberRoles : List String
  logs : List LogEntry
deriving DecidableEq

/-- A world with no effects recorded and no roles held. -/
def World.empty : World := { sentMessages := [], memberRoles := [], logs := [] }

/-- Modelled from the spec: the external ActionInvoker's role assignment
(`member.add_roles`, a platform call outside `src/`) — the platform stores a
member's roles as a set, so assigning an already-held role is a no-op success
("adding a role a member already has ... is a no-op success, not a failure"). -/
def addRolesApi (role_id : String) (roles : List String) : List String :=
  if decide (role_id ∈ roles) then roles else roles ++ [role_id]

/-- Modelled from the spec: the external `member.remove_roles` platform call;
removing a role deletes every instance of it from the member's role set. -/
def removeRolesApi (role_id : String) (roles : List String) : List String :=
  roles.filter (fun r => !(r == role_id))

/-- No injected exception: every external call succeeds. -/
def noFailure : String → Option String := fun _ => none

/-- The `try:` body of `on_member_join` (server.py lines 81-117) for one
matched rule. `raises rule.id = some e` injects an exception from the rule's
external calls, which the `except` catches and logs against that rule. -/
def runJoinAction (raises : String → Option String) (ev : JoinEvent)
    (rule : Rule) (w : World) : World :=
  match raises rule.id with
  | some e => { w with logs := w.logs ++ [LogEntry.ruleError rule.id e] }
  | none =>
    if rule.action_type == "send_message" then
      if truthyStr rule.action_payload.channel_id then
        let content := rule.action_payload.content.getD "Welcome to the server!"
        let content := pyReplace content "{user}" ev.userMention
        let content := pyReplace content "{username}" ev.username
        let content := pyReplace content "{server}" ev.guildName
        { w with
          sentMessages := w.sentMessages ++ [(rule.action_payload.channel_id.getD "", content)],
          logs := w.logs ++ [LogEntry.executed rule.id "sent welcome message"] }
      else w
    else if rule.action_type == "assign_role" then
      if truthyStr rule.action_payload.role_id then
        let role_id := rule.action_payload.role_id.getD ""
        if decide (role_id ∈ ev.guildRoles) then
          { w with
            memberRoles := addRolesApi role_id w.memberRoles,
            logs := w.logs ++ [LogEntry.executed rule.id "assigned role"] }
        else w
      else w
    else if rule.action_type == "log" then
      { w with logs := w.logs ++ [LogEntry.executed rule.id "log"] }
    else w

/-- The `on_member_join` handler: the `discord_client` guard, then the loop
over `automation_rules` in insertion order. -/
def onMemberJoin (clientReady : Bool) (raises : String → Option String)
    (ev : JoinEvent) (rules : List Rule) (w : World) : World :=
  if !clientReady then w
  else
    rules.foldl
      (fun w rule => if joinRuleMatches ev rule then runJoinAction raises ev rule w else w) w

/-- The `on_member_join` handler together with the rule store it iterated
over: the source contains no write to `automation_rules` or to any rule dict,
so the store component is returned as read. -/
def onMemberJoinFull (clientReady : Bool) (raises : String → Option String)
    (ev : JoinEvent) (rules : List Rule) (w : World) : World × List Rule :=
  (onMemberJoin clientReady raises ev rules w, rules)

/-- The `try:` body of `on_reaction_add` (server.py lines 165-199) for one
matched rule. `snapshot` is `member.roles` as fetched once before the loop
(line 134): the membership check `role not in member.roles` reads this
snapshot, while `add_roles` mutates the live role set in the world. -/
def runReactionAddAction (raises : String → Option String) (ev : ReactionEvent)
    (snapshot : List String) (rule : Rule) (w : World) : World :=
  match raises rule.id with
  | some e => { w with logs := w.logs ++ [LogEntry.ruleError rule.id e] }
  | none =>
    if rule.action_type == "assign_role" then
      if truthyStr rule.action_payload.role_id then
        let role_id := rule.action_payload.role_id.getD ""
        if decide (role_id ∈ ev.guildRoles) && !(decide (role_id ∈ snapshot)) then
          { w with
            memberRoles := addRolesApi role_id w.memberRoles,
            logs := w.logs ++ [LogEntry.executed rule.id "assigned role"] }
        else w
      else w
    else if rule.action_type == "send_message" then
      if truthyStr rule.action_payload.channel_id then
        let content := rule.action_payload.content.getD "Reaction received!"
        let content := pyReplace content "{user}" ev.userMention
        let content := pyReplace content "{username}" ev.username
        let content := pyReplace content "{emoji}" ev.emoji
        { w with
          sentMessages := w.sentMessages ++ [(rule.action_payload.channel_id.getD "", content)],
          logs := w.logs ++ [LogEntry.executed rule.id "sent message"] }
      else w
    else if rule.action_type == "log" then
      { w with logs := w.logs ++ [LogEntry.executed rule.id "log"] }
    else w

/-- The rule loop of `on_reaction_add` with the member-roles snapshot fixed. -/
def reactionAddLoop (raises : String → Option String) (ev : ReactionEvent)
    (snapshot : List String) (rules : List Rule) (w : World) : World :=
  rules.foldl
    (fun w rule =>
      if reactionRuleMatches ev rule then runReactionAddAction raises ev snapshot rule w else w) w

/-- The `on_reaction_add` handler: the `discord_client` guard, the bot-user
guard, the `TextChannel` guard, the `fetch_member` try, then the rule loop. -/
def onReactionAdd (clientReady : Bool) (raises : String → Option String)
    (ev : ReactionEvent) (rules : List Rule) (w : World) : World :=
  if !clientReady then w
  else if ev.userIsBot then w
  else if !ev.isTextChannel then w
  else if !ev.memberFetched then w
  else reactionAddLoop raises ev w.memberRoles rules w

/-- `on_reaction_add` together with the rule store it iterated over (the
source contains no write to `automation_rules`). -/
def onReactionAddFull (clientReady : Bool) (raises : String → Option String)
    (ev : ReactionEvent) (rules : List Rule) (w : World) : World × List Rule :=
  (onReactionAdd clientReady raises ev rules w, rules)

/-- The `try:` body of `on_reaction_remove` (server.py lines 253-265) for one
matched rule: only `assign_role` rules act, removing the role when the member
holds it (checked against the `member.roles` snapshot). -/
def runReactionRemoveAction (raises : String → Option String) (ev : ReactionEvent)
    (snapshot : List String) (rule : Rule) (w : World) : World :=
  match raises rule.id with
  | some e => { w with logs := w.logs ++ [LogEntry.ruleError rule.id e] }
  | none =>
    if rule.action_type == "assign_role" then
      if truthyStr rule.action_payload.role_id then
        let role_id := rule.action_payload.role_id.getD ""
        if decide (role_id ∈ ev.guildRoles) && decide (role_id ∈ snapshot) then
          { w with
            memberRoles := removeRolesApi role_id w.memberRoles,
            logs := w.logs ++ [LogEntry.executed rule.id "removed role"] }
        else w
      else w
    else w

/-- The rule loop of `on_reaction_remove` with the member-roles snapshot fixed. -/
def reactionRemoveLoop (raises : String → Option String) (ev : ReactionEvent)
    (snapshot : List String) (rules : List Rule) (w : World) : World :=
  rules.foldl
    (fun w rule =>
      if reactionRemoveRuleMatches ev rule then
        runReactionRemoveAction raises ev snapshot rule w
      else w) w

/-- The `on_reaction_remove` handler: the same guard preamble as
`on_reaction_add`, then the removal rule loop. -/
def onReactionRemove (clientReady : Bool) (raises : String → Option String)
    (ev : ReactionEvent) (rules : List Rule) (w : World) : World :=
  if !clientReady then w
  else if ev.userIsBot then w
  else if !ev.isTextChannel then w
  else if !ev.memberFetched then w
  else reactionRemoveLoop raises ev w.memberRoles rules w

/-- `on_reaction_remove` together with the rule store it iterated over. -/
def onReactionRemoveFull (clientReady : Bool) (raises : String → Option String)
    (ev : ReactionEvent) (rules : List Rule) (w : World) : World × List Rule :=
  (onReactionRemove clientReady raises ev rules w, rules)

/-! ## Deferred task scheduler (`schedule_task`, `run_scheduled_task`) -/

/-- A scheduled task record as stored in `scheduled_tasks` by the
`schedule_task` tool. -/
structure ScheduledTask where
  id : String
  task_type : String
  run_at : String
  created_at : String
  status : String
  payload : String
  result : Option String
  error : Option String
deriving DecidableEq

/-- The `scheduled_tasks` dict: an insertion-ordered map from task id. -/
abbrev TaskStore := List (String × ScheduledTask)

/-- Lookup by key, `scheduled_tasks.get(task_id)`. -/
def storeGet : TaskStore → String → Option ScheduledTask
  | [], _ => none
  | (k, t) :: rest, task_id => if k == task_id then some t else storeGet rest task_id

/-- Mutating the record held under a key (Python mutates the dict the lookup
returned, in place). Absent keys are untouched. -/
def storeSet : TaskStore → String → ScheduledTask → TaskStore
  | [], _, _ => []
  | (k, t) :: rest, task_id, t1 =>
    if k == task_id then (k, t1) :: rest else (k, t) :: storeSet rest task_id t1

/-- A store-mutation event, in program order: used to state in which order the
scheduler writes statuses relative to invoking the task callable. -/
inductive TaskEvent where
  | statusSet (task_id : String) (status : String)
  | invoked (task_id : String)
  | resultSet (task_id : String) (r : String)
  | errorSet (task_id : String) (e : String)
deriving DecidableEq

/-- The `schedule_task` tool (server.py lines 3622-3643), restricted to its
store effects: validate `task_type` against the allow-list, draw a fresh id
from the counter, record the task with status `"scheduled"`. Returns the new
store, the new counter, the task id and the emitted mutation events. -/
def schedule_task (store : TaskStore) (counter : Nat)
    (task_type payload run_at created_at : String) :
    Except String (TaskStore × Nat × String × List TaskEvent) :=
  if !(decide (task_type ∈ ["send_message", "bulk_add_roles", "bulk_modify_members"])) then
    Except.error "Unsupported task_type"
  else
    let task_id := toString (counter + 1)
    let t : ScheduledTask :=
      { id := task_id, task_type := task_type, run_at := run_at,
        created_at := created_at, status := "scheduled", payload := payload,
        result := none, error := none }
    Except.ok (store ++ [(task_id, t)], counter + 1, task_id,
               [TaskEvent.statusSet task_id "scheduled"])

/-- The body of `run_scheduled_task` after the sleep until `run_at`
(server.py lines 388-404): if the task id is gone from the store, return with
no effect; otherwise set status `"running"`, invoke the callable, and set the
terminal status (`"completed"` with a truthy result recorded, or `"failed"`
with the error text). The callable's outcome is its `Except` value. Returns
the new store and the mutation events in program order. -/
def run_scheduled_task (store : TaskStore) (task_id : String)
    (callable : Except String String) : TaskStore × List TaskEvent :=
  match storeGet store task_id with
  | none => (store, [])
  | some t =>
    match callable with
    | Except.ok result =>
      let t1 := { t with status := "completed" }
      let t2 := if !(result == "") then { t1 with result := some result } else t1
      (storeSet store task_id t2,
       [TaskEvent.statusSet task_id "running", TaskEvent.invoked task_id,
        TaskEvent.statusSet task_id "completed"]
         ++ (if !(result == "") then [TaskEvent.resultSet task_id result] else []))
    | Except.error e =>
      (storeSet store task_id { t with status := "failed", error := some e },
       [TaskEvent.statusSet task_id "running", TaskEvent.invoked task_id,
        TaskEvent.statusSet task_id "failed", TaskEvent.errorSet task_id e])

/-- The sequence of status values written for a given task id, extracted from
a mutation-event trace. -/
def statusWrites (task_id : String) : List TaskEvent → List String
  | [] => []
  | TaskEvent.statusSet tid s :: rest =>
    if tid == task_id then s :: statusWrites task_id rest else statusWrites task_id rest
  | _ :: rest => statusWrites task_id rest

/-- The status currently stored for a task id. -/
def statusOf (store : TaskStore) (task_id : String) : Option String :=
  (storeGet store task_id).map ScheduledTask.status

/-! ## Pattern detection and auto-moderation (`auto_moderate_by_pattern`) -/

/-- A message in the scanned channel window, restricted to the fields the
scanner reads: id, author id, content, mention counts
(`len(msg.mentions)`, `len(msg.role_mentions)`), and whether the author is a
guild `Member` (required by the timeout action). -/
structure Msg where
  id : String
  authorId : String
  content : String
  mentionCount : Nat
  roleMentionCount : Nat
  authorIsMember : Bool
deriving DecidableEq

/-- `(msg.content or "").strip().lower()`, the normalization used by the
repeated-message detector. -/
def normContent (m : Msg) : String := pyLower (pyStrip m.content)

/-- The `Counter` of `(author_id, normalized content)` pairs built over the
window (server.py lines 3903-3907): the count of messages by the same author
with the same non-empty normalized content. -/
def repeatCount (messages : List Msg) (author : String) (content : String) : Nat :=
  messages.countP (fun m =>
    !(normContent m == "") && m.authorId == author && normContent m == content)

/-- The second pass of the `repeated_message` branch (lines 3908-3911):
flag every message with non-empty normalized content whose pair count meets
the threshold. -/
def repeatedMessageScan (messages : List Msg) (repeat_threshold : Nat) :
    List Msg → List Msg
  | [] => []
  | m :: rest =>
    let content := normContent m
    if !(content == "") && repeat_threshold ≤ repeatCount messages m.authorId content then
      m :: repeatedMessageScan messages repeat_threshold rest
    else
      repeatedMessageScan messages repeat_threshold rest

/-- `len(re.findall(r"https?://", content))`: count the non-overlapping
occurrences of `http://` or `https://`, scanning left to right (the regex
prefers the longer `https://` at each position). `skip` counts characters
still to consume from a matched occurrence. -/
def countLinkAux : Nat → List Char → Nat
  | _, [] => 0
  | Nat.succ k, _ :: rest => countLinkAux k rest
  | 0, c :: rest =>
    if listStartsWith "https://".data (c :: rest) then
      1 + countLinkAux 7 rest
    else if listStartsWith "http://".data (c :: rest) then
      1 + countLinkAux 6 rest
    else
      countLinkAux 0 rest

/-- The link count of a content string. -/
def countLinkMatches (l : List Char) : Nat := countLinkAux 0 l

/-- The `link_spam` branch (lines 3913-3918). -/
def linkSpamScan (link_threshold : Nat) : List Msg → List Msg
  | [] => []
  | m :: rest =>
    if link_threshold ≤ countLinkMatches m.content.data then
      m :: linkSpamScan link_threshold rest
    else
      linkSpamScan link_threshold rest

/-- The `mention_spam` branch (lines 3920-3925). -/
def mentionSpamScan (mention_threshold : Nat) : List Msg → List Msg
  | [] => []
  | m :: rest =>
    if mention_threshold ≤ m.mentionCount + m.roleMentionCount then
      m :: mentionSpamScan mention_threshold rest
    else
      mentionSpamScan mention_threshold rest

/-- The alphabetic characters of a content string
(`[ch for ch in content if ch.isalpha()]`). -/
def lettersOf (content : String) : List Char := content.data.filter Char.isAlpha

/-- The uppercase-letter ratio of the `caps_spam` branch:
`sum(1 for ch in letters if ch.isupper()) / len(letters)` as a rational. -/
def capsRatio (content : String) : ℚ :=
  Rat.divInt ((lettersOf content).countP Char.isUpper) (lettersOf content).length

/-- The `caps_spam` branch (lines 3927-3937): skip messages with no letters
(the `if not letters: continue` guard), otherwise flag when the ratio meets
the threshold and the total content length meets the minimum. -/
def capsSpamScan (caps_ratio_threshold : ℚ) (min_length : Nat) : List Msg → List Msg
  | [] => []
  | m :: rest =>
    if (lettersOf m.content).isEmpty then
      capsSpamScan caps_ratio_threshold min_length rest
    else if decide (caps_ratio_threshold ≤ capsRatio m.content)
              && decide (min_length ≤ m.content.data.length) then
      m :: capsSpamScan caps_ratio_threshold min_length rest
    else
      capsSpamScan caps_ratio_threshold min_length rest

/-- The scalar arguments of `auto_moderate_by_pattern`, with the source's
defaults (`repeat_threshold=3`, `link_threshold=3`, `mention_threshold=5`,
`caps_ratio_threshold=0.7`, `min_length=15`). -/
structure ModParams where
  repeat_threshold : Nat
  link_threshold : Nat
  mention_threshold : Nat
  caps_ratio_threshold : ℚ
  min_length : Nat
deriving DecidableEq

/-- The pattern-matching phase of `auto_moderate_by_pattern` (lines
3901-3939): dispatch on `pattern_type`, raising `ValueError` on an unknown
pattern. The matched list is computed before `action` or `dry_run` is read. -/
def matchPattern (pattern_type : String) (p : ModParams) (messages : List Msg) :
    Except String (List Msg) :=
  if pattern_type == "repeated_message" then
    Except.ok (repeatedMessageScan messages p.repeat_threshold messages)
  else if pattern_type == "link_spam" then
    Except.ok (linkSpamScan p.link_threshold messages)
  else if pattern_type == "mention_spam" then
    Except.ok (mentionSpamScan p.mention_threshold messages)
  else if pattern_type == "caps_spam" then
    Except.ok (capsSpamScan p.caps_ratio_threshold p.min_length messages)
  else
    Except.error "Unknown pattern_type"

/-- An external moderation side effect applied to the platform. -/
inductive ModAction where
  | deleteMsg (message_id : String)
  | timeoutMember (author_id : String)
deriving DecidableEq

/-- The effect loop of `auto_moderate_by_pattern` (lines 3948-3965): walk the
matches, deleting each, or timing out each matched author at most once
(`timed_out` set) when the author is a guild member; a missing
`timeout_minutes` argument raises inside the per-message `try` and is
recorded as an error for that message. -/
def applyModActions (action : String) (timeout_minutes_given : Bool)
    (timedOut : List String) : List Msg → List ModAction × List String
  | [] => ([], [])
  | m :: rest =>
    if action == "delete" then
      let (acts, errs) := applyModActions action timeout_minutes_given timedOut rest
      (ModAction.deleteMsg m.id :: acts, errs)
    else if action == "timeout" then
      if !timeout_minutes_given then
        let (acts, errs) := applyModActions action timeout_minutes_given timedOut rest
        (acts, (m.id ++ ": timeout_minutes required for timeout action") :: errs)
      else if m.authorIsMember && !(decide (m.authorId ∈ timedOut)) then
        let (acts, errs) :=
          applyModActions action timeout_minutes_given (m.authorId :: timedOut) rest
        (ModAction.timeoutMember m.authorId :: acts, errs)
      else
        applyModActions action timeout_minutes_given timedOut rest
    else
      applyModActions action timeout_minutes_given timedOut rest

/-- The `auto_moderate_by_pattern` tool (server.py lines 3888-3979) over a
fetched message window: normalize the `pattern_type` and `action` arguments,
compute the matched messages, validate the action, and apply external effects
only when `action != "report"` and `dry_run` is false. Returns the matched
messages, the applied external actions, and the per-message error lines. The
tool reads no store and writes no store. -/
def auto_moderate_by_pattern (messages : List Msg) (pattern_type : String)
    (p : ModParams) (action : String) (dry_run : Bool)
    (timeout_minutes_given : Bool) :
    Except String (List Msg × List ModAction × List String) :=
  let pattern_type := pyLower (pyStrip pattern_type)
  let action := pyLower (pyStrip action)
  match matchPattern pattern_type p messages with
  | Except.error e => Except.error e
  | Except.ok matched =>
    if !(decide (action ∈ ["delete", "timeout", "report"])) then
      Except.error "Invalid action"
    else if !(action == "report") && !dry_run then
      let (acts, errs) := applyModActions action timeout_minutes_given [] matched
      Except.ok (matched, acts, errs)
    else
      Except.ok (matched, [], [])

/-! ## Concrete sample values used by the witness theorems -/

/-- A sample member-join event: user "bob" joining guild "10" named
"MyServer", which has a role "55". -/
def sampleJoinEv : JoinEvent :=
  { guildId := "10", guildName := "MyServer", username := "bob",
    userMention := "<@7>", guildRoles := ["55"] }

/-- A sample non-bot reaction event in guild "10" on message "99". -/
def sampleReactEv : ReactionEvent :=
  { userIsBot := false, isTextChannel := true, memberFetched := true,
    guildId := "10", guildName := "MyServer", messageId := "99", emoji := "E",
    username := "bob", userMention := "<@7>", guildRoles := ["55"] }

/-- The sample reaction event as performed by a bot account. -/
def botReactEv : ReactionEvent := { sampleReactEv with userIsBot := true }

/-- A member-join `send_message` rule posting `c` to channel "5". -/
def joinSendRule (c : String) : Rule :=
  { id := "1", server_id := none, name := "welcome", trigger_type := "member_join",
    trigger_value := none, action_type := "send_message",
    action_payload := { ActionPayload.empty with channel_id := some "5", content := some c },
    enabled := true }

/-- A reaction `send_message` rule posting `c` to channel "5". -/
def reactSendRule (c : String) : Rule :=
  { id := "2", server_id := none, name := "react", trigger_type := "reaction_added",
    trigger_value := none, action_type := "send_message",
    action_payload := { ActionPayload.empty with channel_id := some "5", content := some c },
    enabled := true }

/-- A reaction-role rule assigning role "55". -/
def reactRoleRule : Rule :=
  { id := "3", server_id := none, name := "role", trigger_type := "reaction_added",
    trigger_value := none, action_type := "assign_role",
    action_payload := { ActionPayload.empty with role_id := some "55" },
    enabled := true }

/-- A disabled member-join rule. -/
def disabledRule : Rule :=
  { id := "4", server_id := none, name := "off", trigger_type := "member_join",
    trigger_value := none, action_type := "log",
    action_payload := ActionPayload.empty, enabled := false }

/-- A reaction rule that opted out of removal on unreact. -/
def keepRoleRule : Rule :=
  { id := "5", server_id := none, name := "keep", trigger_type := "reaction_added",
    trigger_value := none, action_type := "assign_role",
    action_payload :=
      { ActionPayload.empty with role_id := some "55", remove_on_unreact := some false },
    enabled := true }

/-- A member-join `log` rule. -/
def logRule (i : String) : Rule :=
  { id := i, server_id := none, name := "logger", trigger_type := "member_join",
    trigger_value := none, action_type := "log",
    action_payload := ActionPayload.empty, enabled := true }

/-- An exception oracle failing exactly the rule with id "1". -/
def failRule1 : String → Option String :=
  fun rid => if rid == "1" then some "boom" else none

/-- A sample message record. -/
def mkMsg (i author content : String) (mentions : Nat) : Msg :=
  { id := i, authorId := author, content := content, mentionCount := mentions,
    roleMentionCount := 0, authorIsMember := true }

/-- Default scalar arguments of `auto_moderate_by_pattern`. -/
def defaultModParams : ModParams :=
  { repeat_threshold := 3, link_threshold := 3, mention_threshold := 5,
    caps_ratio_threshold := Rat.divInt 7 10, min_length := 15 }

/-! ## Theorems -/

/-- C2: a rule whose `enabled` field is false is never matched by any of the
three event handlers: each matcher returns false whatever the rule's other
fields and the event are (the `enabled` guard is checked first and
short-circuits, so none of the remaining trigger conditions can contribute),
and the handler loops execute no action for such a rule — processing a store
holding only that rule leaves the world unchanged. -/
theorem disabled_rule_never_matches
    (rule : Rule) (hdis : rule.enabled = false) :
    (∀ ev : JoinEvent, joinRuleMatches ev rule = false)
    ∧ (∀ ev : ReactionEvent, reactionRuleMatches ev rule = false)
    ∧ (∀ ev : ReactionEvent, reactionRemoveRuleMatches ev rule = false)
    ∧ (∀ (raises : String → Option String) (ev : JoinEvent) (w : World),
        onMemberJoin true raises ev [rule] w = w)
    ∧ (∀ (raises : String → Option String) (ev : ReactionEvent)
         (snapshot : List String) (w : World),
        reactionAddLoop raises ev snapshot [rule] w = w
        ∧ reactionRemoveLoop raises ev snapshot [rule] w = w) := by
  refine ⟨?_, ?_, ?_, ?_, ?_⟩ <;> intros <;>
    simp [joinRuleMatches, reactionRuleMatches, reactionRemoveRuleMatches,
          onMemberJoin, reactionAddLoop, reactionRemoveLoop, hdis]

/-- C2 witness: the concrete disabled rule is matched by no handler and
produces no effect. -/
theorem disabled_rule_never_matches_witness :
    joinRuleMatches sampleJoinEv disabledRule = false
    ∧ reactionRuleMatches sampleReactEv disabledRule = false
    ∧ reactionRemoveRuleMatches sampleReactEv disabledRule = false
    ∧ onMemberJoin true noFailure sampleJoinEv [disabledRule] World.empty = World.empty :=
  ⟨(disabled_rule_never_matches disabledRule rfl).1 sampleJoinEv,
   (disabled_rule_never_matches disabledRule rfl).2.1 sampleReactEv,
   (disabled_rule_never_matches disabledRule rfl).2.2.1 sampleReactEv,
   (disabled_rule_never_matches disabledRule rfl).2.2.2.1 noFailure sampleJoinEv World.empty⟩

/-- C6: on reaction-removal events a rule is eligible exactly when it matches
the reaction matcher and its action payload's `remove_on_unreact` flag, with
default `true` when absent, is true; in particular every rule with
`remove_on_unreact = false` is excluded from the matched set. -/
theorem remove_on_unreact_gate :
    (∀ (ev : ReactionEvent) (rule : Rule),
      reactionRemoveRuleMatches ev rule
        = (reactionRuleMatches ev rule && rule.action_payload.remove_on_unreact.getD true))
    ∧ (∀ (ev : ReactionEvent) (rule : Rule),
        rule.action_payload.remove_on_unreact = some false →
        reactionRemoveRuleMatches ev rule = false) := by
  constructor
  · intro ev rule
    unfold reactionRemoveRuleMatches reactionRuleMatches
    repeat' split
    all_goals simp_all
  · intro ev rule h
    unfold reactionRemoveRuleMatches
    repeat' split
    all_goals simp_all

/-- C6 witness: the concrete opt-out rule matches the add matcher but is
excluded on removal. -/
theorem remove_on_unreact_gate_witness :
    reactionRemoveRuleMatches sampleReactEv keepRoleRule
      = (reactionRuleMatches sampleReactEv keepRoleRule
          && keepRoleRule.action_payload.remove_on_unreact.getD true)
    ∧ reactionRemoveRuleMatches sampleReactEv keepRoleRule = false :=
  ⟨remove_on_unreact_gate.1 sampleReactEv keepRoleRule,
   remove_on_unreact_gate.2 sampleReactEv keepRoleRule rfl⟩

/-- C10: a reaction-add or reaction-remove event performed by a bot account
is dropped by the `if user.bot: return` guard before the rule loop: the world
is unchanged (no rule matched, no action executed, nothing sent or logged)
and the rule store is unchanged. -/
theorem bot_reactions_ignored
    (clientReady : Bool) (raises : String → Option String) (ev : ReactionEvent)
    (rules : List Rule) (w : World) (hbot : ev.userIsBot = true) :
    onReactionAddFull clientReady raises ev rules w = (w, rules)
    ∧ onReactionRemoveFull clientReady raises ev rules w = (w, rules) := by
  cases clientReady <;>
    simp [onReactionAddFull, onReactionRemoveFull, onReactionAdd, onReactionRemove, hbot]

/-- C10 witness: the concrete bot reaction event leaves world and store
untouched even with a rule that would otherwise match. -/
theorem bot_reactions_ignored_witness :
    onReactionAddFull true noFailure botReactEv [reactRoleRule] World.empty
        = (World.empty, [reactRoleRule])
    ∧ onReactionRemoveFull true noFailure botReactEv [reactRoleRule] World.empty
        = (World.empty, [reactRoleRule]) :=
  bot_reactions_ignored true noFailure botReactEv [reactRoleRule] World.empty rfl

/-- C4: when the task record was removed from the store before the scheduler
woke up, `run_scheduled_task` returns at the `if not task_entry` guard: it
performs no invocation, emits no status transition, and returns the store —
and therefore every other task — unchanged. -/
theorem cancelled_task_is_noop
    (store : TaskStore) (task_id : String) (callable : Except String String)
    (hgone : storeGet store task_id = none) :
    run_scheduled_task store task_id callable = (store, []) := by
  simp [run_scheduled_task, hgone]

/-- C4 witness: running a deleted task id against a store holding another
task changes nothing. -/
theorem cancelled_task_is_noop_witness :
    run_scheduled_task
        [("1", { id := "1", task_type := "send_message", run_at := "r",
                 created_at := "c", status := "scheduled", payload := "p",
                 result := none, error := none })]
        "2" (Except.ok "done")
      = ([("1", { id := "1", task_type := "send_message", run_at := "r",
                  created_at := "c", status := "scheduled", payload := "p",
                  result := none, error := none })], []) :=
  cancelled_task_is_noop _ "2" (Except.ok "done") rfl

/-- C1: per-rule failure isolation of the dispatcher. If executing rule `r`'s
action raises, the handler logs the error against `r` only and continues:
with `r` anywhere in the store, the run equals "process the rules before `r`,
append exactly one error log for `r`, then process all the rules after `r`
normally" — and the rule store (hence `r`'s record and its `enabled` flag) is
returned unchanged, both for member-join and for reaction-add events. -/
theorem rule_error_isolation
    (raises : String → Option String) (r : Rule) (e : String)
    (hraise : raises r.id = some e) :
    (∀ (ev : JoinEvent) (w : World) (rules1 rules2 : List Rule),
      joinRuleMatches ev r = true →
      onMemberJoinFull true raises ev (rules1 ++ r :: rules2) w
        = (onMemberJoin true raises ev rules2
            { onMemberJoin true raises ev rules1 w with
              logs := (onMemberJoin true raises ev rules1 w).logs
                        ++ [LogEntry.ruleError r.id e] },
           rules1 ++ r :: rules2))
    ∧ (∀ (ev : ReactionEvent) (snapshot : List String) (w : World)
         (rules1 rules2 : List Rule),
      reactionRuleMatches ev r = true →
      reactionAddLoop raises ev snapshot (rules1 ++ r :: rules2) w
        = reactionAddLoop raises ev snapshot rules2
            { reactionAddLoop raises ev snapshot rules1 w with
              logs := (reactionAddLoop raises ev snapshot rules1 w).logs
                        ++ [LogEntry.ruleError r.id e] }) := by
  constructor
  · intro ev w rules1 rules2 hmatch
    simp [onMemberJoinFull, onMemberJoin, List.foldl_append, hmatch,
          runJoinAction, hraise]
  · intro ev snapshot w rules1 rules2 hmatch
    simp [reactionAddLoop, List.foldl_append, hmatch,
          runReactionAddAction, hraise]

/-- C1 witness: with three join rules of which the middle one fails, the
handler records the failure and still executes the rules after it. -/
theorem rule_error_isolation_witness :
    joinRuleMatches sampleJoinEv (joinSendRule "hi") = true
    ∧ onMemberJoinFull true failRule1 sampleJoinEv
        ([logRule "0"] ++ joinSendRule "hi" :: [logRule "9"]) World.empty
      = (onMemberJoin true failRule1 sampleJoinEv [logRule "9"]
          { onMemberJoin true failRule1 sampleJoinEv [logRule "0"] World.empty with
            logs := (onMemberJoin true failRule1 sampleJoinEv [logRule "0"]
                       World.empty).logs
                      ++ [LogEntry.ruleError (joinSendRule "hi").id "boom"] },
         [logRule "0"] ++ joinSendRule "hi" :: [logRule "9"]) :=
  ⟨rfl,
   (rule_error_isolation failRule1 (joinSendRule "hi") "boom" rfl).1
     sampleJoinEv World.empty [logRule "0"] [logRule "9"] rfl⟩

/-- Looking a key up after appending to a store that lacks it reaches the
appended part. -/
theorem storeGet_append_of_none {s1 : TaskStore} {k : String}
    (s2 : TaskStore) (h : storeGet s1 k = none) :
    storeGet (s1 ++ s2) k = storeGet s2 k := by
  induction s1 with
  | nil => simp
  | cons p rest ih =>
    rw [List.cons_append]
    by_cases hk : p.1 == k
    · exfalso
      have : storeGet (p :: rest) k = some p.2 := by
        cases p; simp_all [storeGet]
      simp_all
    · cases p
      simp_all [storeGet]

/-- Updating a present key makes the lookup return the new record. -/
theorem storeGet_storeSet_self {store : TaskStore} {k : String} {t0 : ScheduledTask}
    (t : ScheduledTask) (h : storeGet store k = some t0) :
    storeGet (storeSet store k t) k = some t := by
  induction store with
  | nil => simp [storeGet] at h
  | cons p rest ih =>
    cases p with
    | mk k1 t1 =>
      by_cases hk : k1 == k
      · simp_all [storeGet, storeSet]
      · simp_all [storeGet, storeSet]

/-- C3: the scheduled-task lifecycle. Submitting a task with a fresh id
records it with status `scheduled`; when the scheduler later runs it, the
statuses written over the task's whole lifecycle are exactly
`scheduled → running → completed` (callable returned) or
`scheduled → running → failed` (callable raised) — the terminal status is
written exactly once and nothing is written after it — the `running` write is
immediately followed by the invocation, and the store ends with the terminal
status recorded. (Lines 392, 395 and 402 of server.py are the only writes to
any task's `status` in the source, so no other operation can revert it.) -/
theorem task_lifecycle
    (store : TaskStore) (counter : Nat) (ty payload ra ca : String)
    (callable : Except String String)
    (store1 : TaskStore) (c1 : Nat) (tid : String) (evs0 : List TaskEvent)
    (hsub : schedule_task store counter ty payload ra ca
              = Except.ok (store1, c1, tid, evs0))
    (hfresh : storeGet store tid = none) :
    statusOf store1 tid = some "scheduled"
    ∧ statusWrites tid (evs0 ++ (run_scheduled_task store1 tid callable).2)
        = ["scheduled", "running",
           match callable with
           | Except.ok _ => "completed"
           | Except.error _ => "failed"]
    ∧ (run_scheduled_task store1 tid callable).2.take 2
        = [TaskEvent.statusSet tid "running", TaskEvent.invoked tid]
    ∧ statusOf (run_scheduled_task store1 tid callable).1 tid
        = some (match callable with
                | Except.ok _ => "completed"
                | Except.error _ => "failed") := by
  unfold schedule_task at hsub
  by_cases hty : ty ∈ ["send_message", "bulk_add_roles", "bulk_modify_members"]
  case neg => simp [hty] at hsub
  rw [decide_eq_true hty] at hsub
  simp only [Bool.not_true, Bool.false_eq_true, if_false, Except.ok.injEq,
    Prod.mk.injEq] at hsub
  obtain ⟨hstore1, hc1, htid, hevs0⟩ := hsub
  subst hc1 hevs0 htid hstore1
  have hget : storeGet
      (store ++ [(toString (counter + 1),
        { id := toString (counter + 1), task_type := ty, run_at := ra, created_at := ca,
          status := "scheduled", payload := payload, result := none, error := none })])
      (toString (counter + 1))
      = some { id := toString (counter + 1), task_type := ty, run_at := ra,
               created_at := ca, status := "scheduled", payload := payload,
               result := none, error := none } := by
    rw [storeGet_append_of_none _ hfresh]
    simp [storeGet]
  refine ⟨by simp [statusOf, hget], ?_, ?_, ?_⟩
  · unfold run_scheduled_task
    rw [hget]
    cases callable with
    | ok result =>
      by_cases hres : result == ""
      · simp [hres, statusWrites]
      · simp [hres, statusWrites]
    | error e => simp [statusWrites]
  · unfold run_scheduled_task
    rw [hget]
    cases callable with
    | ok result => by_cases hres : result == "" <;> simp [hres]
    | error e => simp
  · unfold run_scheduled_task
    rw [hget]
    cases callable with
    | ok result =>
      by_cases hres : result == "" <;>
        simp [hres, statusOf, storeGet_storeSet_self _ hget]
    | error e => simp [statusOf, storeGet_storeSet_self _ hget]

/-- C3 witness: submitting a `send_message` task to an empty store and
running it with a successful callable walks
`scheduled → running → completed`. -/
theorem task_lifecycle_witness :
    statusOf
        (schedule_task [] 0 "send_message" "p" "r" "c").toOption.get!.1 "1"
      = some "scheduled"
    ∧ statusWrites "1"
        ([TaskEvent.statusSet "1" "scheduled"]
          ++ (run_scheduled_task
                (schedule_task [] 0 "send_message" "p" "r" "c").toOption.get!.1 "1"
                (Except.ok "done")).2)
      = ["scheduled", "running", "completed"] := by
  have h := task_lifecycle [] 0 "send_message" "p" "r" "c" (Except.ok "done")
    [("1", { id := "1", task_type := "send_message", run_at := "r",
             created_at := "c", status := "scheduled", payload := "p",
             result := none, error := none })]
    1 "1" [TaskEvent.statusSet "1" "scheduled"] rfl rfl
  exact ⟨h.1, h.2.1⟩

/-- C7: dispatching an `assign_role` reaction rule twice for the same member
and role is idempotent. When the external calls succeed, the guild has the
role, and the member starts with at most one instance of it, the member ends
the second dispatch with exactly one instance, the second dispatch changes
the role set not at all, and neither dispatch logs a failure; symmetrically,
an unreact-triggered role removal for a role the member lacks is a complete
no-op success. -/
theorem assign_role_idempotent
    (ev : ReactionEvent) (rule : Rule) (r : String)
    (hbot : ev.userIsBot = false) (htc : ev.isTextChannel = true)
    (hmf : ev.memberFetched = true)
    (hmatch : reactionRuleMatches ev rule = true)
    (hact : rule.action_type = "assign_role")
    (hrid : rule.action_payload.role_id = some r) (hne : ¬(r = ""))
    (hguild : r ∈ ev.guildRoles) :
    (∀ w0 : World, List.count r w0.memberRoles ≤ 1 →
      List.count r (onReactionAdd true noFailure ev [rule]
          (onReactionAdd true noFailure ev [rule] w0)).memberRoles = 1
      ∧ (onReactionAdd true noFailure ev [rule]
           (onReactionAdd true noFailure ev [rule] w0)).memberRoles
          = (onReactionAdd true noFailure ev [rule] w0).memberRoles
      ∧ (∀ rid m, LogEntry.ruleError rid m
            ∈ (onReactionAdd true noFailure ev [rule]
                (onReactionAdd true noFailure ev [rule] w0)).logs
          → LogEntry.ruleError rid m ∈ w0.logs))
    ∧ (∀ wx : World, r ∉ wx.memberRoles →
        onReactionRemove true noFailure ev [rule] wx = wx) := by
  have key : ∀ w : World,
      onReactionAdd true noFailure ev [rule] w
        = if r ∈ w.memberRoles then w
          else { w with
                 memberRoles := w.memberRoles ++ [r]
                 logs := w.logs ++ [LogEntry.executed rule.id "assigned role"] } := by
    intro w
    unfold onReactionAdd reactionAddLoop runReactionAddAction
    by_cases hw : r ∈ w.memberRoles <;>
      simp [hbot, htc, hmf, hmatch, noFailure, hact, hrid, truthyStr, hne,
            hguild, addRolesApi, hw]
  constructor
  · intro w0 hcount
    by_cases h0 : r ∈ w0.memberRoles
    · rw [key w0, if_pos h0, key w0, if_pos h0]
      have h1 : 0 < List.count r w0.memberRoles := List.count_pos_iff.mpr h0
      exact ⟨by omega, rfl, fun _ _ hm => hm⟩
    · rw [key w0, if_neg h0]
      have hroles :
          ({ w0 with
             memberRoles := w0.memberRoles ++ [r]
             logs := w0.logs ++ [LogEntry.executed rule.id "assigned role"] }
            : World).memberRoles = w0.memberRoles ++ [r] := rfl
      rw [key, if_pos (by rw [hroles]; simp)]
      refine ⟨?_, rfl, ?_⟩
      · rw [hroles, List.count_append, List.count_eq_zero.mpr h0]
        simp
      · intro rid m hm
        simp only [List.mem_append, List.mem_singleton] at hm
        rcases hm with hm | hm
        · exact hm
        · exact absurd hm (by simp)
  · intro wx hwx
    unfold onReactionRemove reactionRemoveLoop runReactionRemoveAction
    cases hm : reactionRemoveRuleMatches ev rule <;>
      simp [hbot, htc, hmf, hm, noFailure, hact, hrid, truthyStr, hne, hguild, hwx]

/-- C7 witness: assigning role "55" twice from the sample reaction event
leaves the member with exactly one instance, and removal when the role is
absent is a no-op. -/
theorem assign_role_idempotent_witness :
    List.count "55" (onReactionAdd true noFailure sampleReactEv [reactRoleRule]
        (onReactionAdd true noFailure sampleReactEv [reactRoleRule]
          World.empty)).memberRoles = 1
    ∧ onReactionRemove true noFailure sampleReactEv [reactRoleRule] World.empty
        = World.empty :=
  ⟨((assign_role_idempotent sampleReactEv reactRoleRule "55" rfl rfl rfl rfl rfl rfl
      (by decide) (by decide)).1 World.empty (by decide)).1,
   (assign_role_idempotent sampleReactEv reactRoleRule "55" rfl rfl rfl rfl rfl rfl
      (by decide) (by decide)).2 World.empty (by decide)⟩

/-- C8 (amended): the handlers substitute placeholders from the event context
into a `send_message` payload before sending, but each handler substitutes
its own fixed subset: member-join substitutes `{user}`, `{username}` and
`{server}`; reaction-add substitutes `{user}`, `{username}` and `{emoji}`
(never `{server}`, although the event context carries the server). The
member-join example holds: content "Welcome {username}!" for joining user
"bob" is sent as "Welcome bob!". -/
theorem send_message_placeholder_subst :
    (∀ (c : String) (ev : JoinEvent) (w : World),
      (onMemberJoin true noFailure ev [joinSendRule c] w).sentMessages
        = w.sentMessages
            ++ [("5", pyReplace (pyReplace (pyReplace c "{user}" ev.userMention)
                    "{username}" ev.username) "{server}" ev.guildName)])
    ∧ (∀ (c : String) (ev : ReactionEvent) (w : World),
        ev.userIsBot = false → ev.isTextChannel = true → ev.memberFetched = true →
        (onReactionAdd true noFailure ev [reactSendRule c] w).sentMessages
          = w.sentMessages
              ++ [("5", pyReplace (pyReplace (pyReplace c "{user}" ev.userMention)
                      "{username}" ev.username) "{emoji}" ev.emoji)])
    ∧ (onMemberJoin true noFailure sampleJoinEv [joinSendRule "Welcome {username}!"]
         World.empty).sentMessages = [("5", "Welcome bob!")] := by
  refine ⟨?_, ?_, by decide⟩
  · intro c ev w
    simp [onMemberJoin, joinRuleMatches, joinSendRule, truthyStr, runJoinAction,
          noFailure, ActionPayload.empty]
  · intro c ev w hbot htc hmf
    simp [onReactionAdd, reactionAddLoop, reactionRuleMatches, reactSendRule,
          truthyStr, runReactionAddAction, noFailure, ActionPayload.empty,
          hbot, htc, hmf]

/-- C8 witness: the reaction-add substitution applied at the sample event. -/
theorem send_message_placeholder_subst_witness :
    (onReactionAdd true noFailure sampleReactEv
        [reactSendRule "Hello {username} {emoji}"] World.empty).sentMessages
      = World.empty.sentMessages
          ++ [("5", pyReplace (pyReplace (pyReplace "Hello {username} {emoji}"
                  "{user}" sampleReactEv.userMention)
                "{username}" sampleReactEv.username) "{emoji}" sampleReactEv.emoji)] :=
  send_message_placeholder_subst.2.1 "Hello {username} {emoji}" sampleReactEv
    World.empty rfl rfl rfl

/-- C8 counterexample: a reaction-event `send_message` rule whose content
contains the `{server}` placeholder sends it unsubstituted, although the
event context carries the server name "MyServer" and substitution would have
produced "Hi MyServer". -/
theorem send_message_placeholder_cex :
    (onReactionAdd true noFailure sampleReactEv [reactSendRule "Hi {server}"]
       World.empty).sentMessages = [("5", "Hi {server}")]
    ∧ sampleReactEv.guildName = "MyServer"
    ∧ pyReplace "Hi {server}" "{server}" "MyServer" = "Hi MyServer" :=
  ⟨by decide, rfl, by decide⟩

/-- C5: dry-run equivalence of `auto_moderate_by_pattern`. Over the same
message window and thresholds, the `dry_run = true` run yields exactly the
matched-message-id list of the `dry_run = false` run (or the same error), and
a successful `dry_run = true` run applies no external action (no deletion, no
timeout) and records no action errors; the tool touches no store at all. -/
theorem dry_run_equivalence
    (messages : List Msg) (pattern_type : String) (p : ModParams)
    (action : String) (tm : Bool) :
    (auto_moderate_by_pattern messages pattern_type p action true tm).map
        (fun x => x.1.map Msg.id)
      = (auto_moderate_by_pattern messages pattern_type p action false tm).map
          (fun x => x.1.map Msg.id)
    ∧ (∀ matched acts errs,
        auto_moderate_by_pattern messages pattern_type p action true tm
          = Except.ok (matched, acts, errs) → acts = [] ∧ errs = []) := by
  unfold auto_moderate_by_pattern
  cases hm : matchPattern (pyLower (pyStrip pattern_type)) p messages with
  | error e => simp [hm]
  | ok matched =>
    simp only [hm]
    constructor
    · by_cases ha : pyLower (pyStrip action) ∈ ["delete", "timeout", "report"]
      · by_cases hrep : pyLower (pyStrip action) = "report" <;>
          simp [ha, hrep, Except.map]
      · simp [ha]
    · intro matched2 acts errs h
      simp only [Bool.not_true, Bool.and_false] at h
      split at h
      · exact absurd h (by simp)
      · simp at h
        exact ⟨h.2.1, h.2.2⟩

/-- C5 witness: a concrete link-spam window: the dry run and the live run
match the same message, and the dry run applies nothing. -/
theorem dry_run_equivalence_witness :
    (auto_moderate_by_pattern [mkMsg "9" "a" "see http://a http://b https://c" 0]
        "link_spam" defaultModParams "delete" true true).map (fun x => x.1.map Msg.id)
      = (auto_moderate_by_pattern [mkMsg "9" "a" "see http://a http://b https://c" 0]
          "link_spam" defaultModParams "delete" false true).map (fun x => x.1.map Msg.id)
    ∧ ([] : List ModAction) = [] ∧ ([] : List String) = [] :=
  ⟨(dry_run_equivalence [mkMsg "9" "a" "see http://a http://b https://c" 0]
      "link_spam" defaultModParams "delete" true).1,
   (dry_run_equivalence [mkMsg "9" "a" "see http://a http://b https://c" 0]
      "link_spam" defaultModParams "delete" true).2
     [mkMsg "9" "a" "see http://a http://b https://c" 0] [] [] rfl⟩

/-- C9: the `caps_spam` detector flags exactly the messages whose
uppercase-over-alphabetic-characters ratio meets the threshold and whose
total content length meets the minimum; a message with no alphabetic
characters is skipped by the `if not letters: continue` guard before any
division, so it is never flagged and the branch is total (returns `ok` on
every window, never a division-by-zero error). The ratio is the rational
division upper-count / letter-count. -/
theorem caps_spam_characterization :
    (∀ (r : ℚ) (n : Nat) (messages : List Msg),
      capsSpamScan r n messages
        = messages.filter (fun m =>
            !(lettersOf m.content).isEmpty
            && (decide (r ≤ capsRatio m.content)
                 && decide (n ≤ m.content.data.length))))
    ∧ (∀ (r : ℚ) (n : Nat) (messages : List Msg) (m : Msg),
        m ∈ capsSpamScan r n messages → lettersOf m.content ≠ [])
    ∧ (∀ content : String,
        capsRatio content
          = (((lettersOf content).countP Char.isUpper : ℚ)
              / ((lettersOf content).length : ℚ)))
    ∧ (∀ (p : ModParams) (messages : List Msg),
        matchPattern "caps_spam" p messages
          = Except.ok (capsSpamScan p.caps_ratio_threshold p.min_length messages)) := by
  have hfilter : ∀ (r : ℚ) (n : Nat) (messages : List Msg),
      capsSpamScan r n messages
        = messages.filter (fun m =>
            !(lettersOf m.content).isEmpty
            && (decide (r ≤ capsRatio m.content)
                 && decide (n ≤ m.content.data.length))) := by
    intro r n messages
    induction messages with
    | nil => rfl
    | cons m rest ih =>
      by_cases h1 : (lettersOf m.content).isEmpty
      · simp [capsSpamScan, h1, ih, List.filter_cons]
      · by_cases h2 : (decide (r ≤ capsRatio m.content)
            && decide (n ≤ m.content.data.length)) = true
        · simp [capsSpamScan, h1, h2, ih, List.filter_cons]
        · simp only [Bool.not_eq_true] at h2
          simp [capsSpamScan, h1, h2, ih, List.filter_cons]
  refine ⟨hfilter, ?_, ?_, ?_⟩
  · intro r n messages m hm
    rw [hfilter] at hm
    have := (List.mem_filter.mp hm).2
    simp only [Bool.and_eq_true, Bool.not_eq_true'] at this
    intro hcontra
    rw [hcontra] at this
    simp at this
  · intro content
    unfold capsRatio
    rw [Rat.divInt_eq_div]
    push_cast
    rfl
  · intro p messages
    rfl

/-- C9 witness: an all-caps sixteen-character message is flagged (and hence
has letters), matching the filter characterization. -/
theorem caps_spam_characterization_witness :
    capsSpamScan (Rat.divInt 7 10) 15 [mkMsg "1" "a" "AAAAAAAAAAAAAAAA" 0]
      = [mkMsg "1" "a" "AAAAAAAAAAAAAAAA" 0].filter (fun m =>
          !(lettersOf m.content).isEmpty
          && (decide (Rat.divInt 7 10 ≤ capsRatio m.content)
               && decide (15 ≤ m.content.data.length)))
    ∧ lettersOf (mkMsg "1" "a" "AAAAAAAAAAAAAAAA" 0).content ≠ [] :=
  ⟨caps_spam_characterization.1 (Rat.divInt 7 10) 15 _,
   caps_spam_characterization.2.1 (Rat.divInt 7 10) 15
     [mkMsg "1" "a" "AAAAAAAAAAAAAAAA" 0] _ (by decide)⟩

end DiscordMCP
